import Mathlib

/-!
Shallow embedding of the sweep-device repository: the power-spectrum
configuration allocator and capture routine of src/src/wsa_sweep_device.c,
and the peak-finding routine of src/examples/peakfind/peakfind.c.

Machine integers are modelled as Nat with explicit reduction modulo 2 to
the 64 where the C arithmetic can wrap.  Device I/O (flush, mode and
geometry configuration, trigger, packet reads) is modelled as an explicit
trace of operations, and the stream of results the device returns is an
input list of events.  Amplitude samples are modelled over Int: the source
never performs any floating-point arithmetic on them (the transform and
reference-level stages of the source are empty), so only storage and order
matter.
-/

/-- Modulus of the C type uint64_t, that is 2 to the 64. -/
def U64_MOD : Nat := 18446744073709551616

/-- Subtraction of uint64_t values as C computes it: wraps modulo 2 to the 64.
Inputs are u64 values, hence below the modulus. -/
def u64sub (a b : Nat) : Nat := (a + U64_MOD - b) % U64_MOD

/-- Modelled from the spec: the VRT packet-type constants come from a device
header that is not among the repository files; the spec gives the enum
IF, CONTEXT, EXTENSION.  Concrete values are arbitrary distinct tags; the
source only ever compares a packet type against IF_PACKET_TYPE. -/
def IF_PACKET_TYPE : Nat := 1

/-- Modelled from the spec: the context packet-type tag (see IF_PACKET_TYPE). -/
def CONTEXT_PACKET_TYPE : Nat := 4

/-- Modelled from the spec: the extension packet-type tag (see IF_PACKET_TYPE). -/
def EXTENSION_PACKET_TYPE : Nat := 5

/-- Modelled from the spec: the mode string constant WSA_RFE_SHN_STRING of the
absent device header; the spec names the mode shn. -/
def WSA_RFE_SHN_STRING : String := "SHN"

/-- The default mode the reference driver main() starts with (strcpy of SH
into the mode buffer in src/examples/peakfind/peakfind.c). -/
def DEFAULT_SWEEP_MODE : String := "SH"

/-- The power spectrum configuration struct wsa_power_spectrum_config: the
sweep settings copied in by wsa_power_spectrum_alloc and the length of the
allocated bin buffer.  The buffer contents are threaded separately, as a list
of samples. -/
structure PSConfig where
  fstart : Nat
  fstop : Nat
  rbw : Nat
  buflen : Nat
deriving DecidableEq

/-- wsa_power_spectrum_alloc of src/src/wsa_sweep_device.c: copies fstart,
fstop and rbw into the config and computes buflen = (fstop - fstart) / rbw in
uint64 arithmetic.  It performs no validation of the plan and ignores the
mode argument.  The two malloc calls are modelled by the two Bool inputs;
none models the C return of -1. -/
def wsa_power_spectrum_alloc (cfgAllocOk bufAllocOk : Bool)
    (fstart fstop : Nat) (rbw : Nat) (mode : String) : Option PSConfig :=
  if cfgAllocOk then
    if bufAllocOk then
      some { fstart := fstart, fstop := fstop, rbw := rbw,
             buflen := u64sub fstop fstart / rbw }
    else none
  else none

/-- Modelled from the spec: bin i of a sweep buffer corresponds to frequency
fstart + i * bin_hz with bin_hz = rbw.  The source stores fstart and rbw in
the config without ever computing labels itself; this definition reads them
back out of the allocated config. -/
def binFrequency (cfg : PSConfig) (i : Nat) : Nat := cfg.fstart + i * cfg.rbw

/-- The decoded VRT packet header fields the capture loop inspects. -/
structure VrtHeader where
  stream_id : Nat
  packet_type : Nat
deriving DecidableEq

/-- One outcome of a wsa_read_vrt_packet call: either a negative result
(read failure, for example a timeout) or a decoded packet header. -/
inductive VrtEvent where
  | readErr (code : Int)
  | packet (h : VrtHeader)
deriving DecidableEq

/-- A device operation issued by the capture routine, in issue order. -/
inductive DevOp where
  | flushData
  | setRFEInputMode (mode : String)
  | setSPP (n : Nat)
  | setPPB (n : Nat)
  | captureBlock
  | readVrtPacket (spp : Nat) (timeoutMs : Nat)
deriving DecidableEq

/-- Outcome of the packet-read loop of wsa_capture_power_spectrum: a read
failure code, or the header of the IF packet that ended the loop. -/
inductive VrtReadResult where
  | ioError (code : Int)
  | gotIF (h : VrtHeader)
deriving DecidableEq

/-- The read loop of wsa_capture_power_spectrum: read a packet; a negative
read result returns -1 out of the routine; a packet whose type is
IF_PACKET_TYPE breaks the loop; any other packet is dumped to the log and
the loop continues.  Returns the outcome plus how many reads were issued;
none models an exhausted event list (the C loop would still be blocked
reading). -/
def readLoop : List VrtEvent → Option (VrtReadResult × Nat)
  | [] => none
  | VrtEvent.readErr code :: _ => some (VrtReadResult.ioError code, 1)
  | VrtEvent.packet h :: rest =>
      if h.packet_type = IF_PACKET_TYPE then some (VrtReadResult.gotIF h, 1)
      else (readLoop rest).map (fun p => (p.1, p.2 + 1))

/-- The five device operations wsa_capture_power_spectrum issues before its
read loop, in source order: flush, set RFE input mode to the constant
WSA_RFE_SHN_STRING, samples-per-packet 1024, packets-per-block 1, one
capture-block trigger. -/
def setupOps : List DevOp :=
  [DevOp.flushData, DevOp.setRFEInputMode WSA_RFE_SHN_STRING,
   DevOp.setSPP 1024, DevOp.setPPB 1, DevOp.captureBlock]

/-- wsa_capture_power_spectrum of src/src/wsa_sweep_device.c: issues
setupOps; if the capture-block trigger failed, returns -1; otherwise loops
reading packets until an IF packet (result 0) or a read failure (result -1).
Output: (return code, device-operation trace, buffer contents after the
call).  The routine never writes the spectrum buffer - the transform and
reference-level sections of the source are empty - so the contents pass
through unchanged.  captureBlockResult models the device status of
wsa_capture_block, events the successive wsa_read_vrt_packet outcomes. -/
def wsa_capture_power_spectrum (cfg : PSConfig) (contents : List Int)
    (captureBlockResult : Int) (events : List VrtEvent) :
    Option (Int × List DevOp × List Int) :=
  if captureBlockResult < 0 then some (-1, setupOps, contents)
  else
    match readLoop events with
    | none => none
    | some (VrtReadResult.ioError _, n) =>
        some (-1, setupOps ++ List.replicate n (DevOp.readVrtPacket 1024 5000), contents)
    | some (VrtReadResult.gotIF _, n) =>
        some (0, setupOps ++ List.replicate n (DevOp.readVrtPacket 1024 5000), contents)

/-- An event the read loop skips: a successfully decoded packet whose type is
not IF_PACKET_TYPE (context or extension packets, whatever their stream id). -/
def isSkippablePacket (e : VrtEvent) : Prop :=
  ∃ h : VrtHeader, e = VrtEvent.packet h ∧ h.packet_type ≠ IF_PACKET_TYPE

/-- peakfind of src/examples/peakfind/peakfind.c: initialises a found counter,
runs a loop over the amplitude buffer whose body is empty, and returns 0,
never touching the output arrays pfreq and pamp.  The output arrays are
threaded as lists; the result is (return value, pfreq after, pamp after). -/
def peakfind (buf : List Int) (buflen : Nat) (hzperbin : Nat) (peaks : Nat)
    (pfreq : List Nat) (pamp : List Int) : Int × List Nat × List Int :=
  let st := (List.range buflen).foldl (fun s _i => s) (((0 : Int), pfreq, pamp))
  (0, st.2.1, st.2.2)

/-- The peak sequence a caller reads back from a peakfind call: the first
entries of the (frequency, amplitude) output arrays, as many as the returned
count says were found. -/
def returnedPeaks (buf : List Int) (buflen : Nat) (hzperbin : Nat) (peaks : Nat)
    (pfreq : List Nat) (pamp : List Int) : List (Nat × Int) :=
  let r := peakfind buf buflen hzperbin peaks pfreq pamp
  (r.2.1.zip r.2.2).take r.1.toNat

/-- Bin i of buf is a local maximum: its amplitude is at least the amplitude
of each existing neighbour; the boundary bins have a single neighbour. -/
def isLocalMax (buf : List Int) (i : Nat) : Bool :=
  decide (i < buf.length) &&
  (decide (i = 0) || decide (buf.getD (i - 1) 0 ≤ buf.getD i 0)) &&
  (decide (buf.length ≤ i + 1) || decide (buf.getD (i + 1) 0 ≤ buf.getD i 0))

/-- The number of true local maxima of an amplitude buffer. -/
def localMaxCount (buf : List Int) : Nat :=
  ((List.range buf.length).filter (fun i => isLocalMax buf i)).length

/-- Peak a precedes peak b in the output order: strictly larger amplitude, or
equal amplitude and strictly lower frequency. -/
def peakOrdered (a b : Nat × Int) : Prop :=
  b.2 < a.2 ∨ (a.2 = b.2 ∧ a.1 < b.1)

/-- A fold whose step ignores the element and returns the accumulator leaves
the accumulator unchanged (the empty peakfind loop). -/
theorem foldl_skip {α β : Type} (l : List α) (s : β) :
    l.foldl (fun a _ => a) s = s := by
  induction l generalizing s with
  | nil => rfl
  | cons x t ih => rw [List.foldl_cons]; exact ih s

/-- peakfind returns 0 and passes both output arrays through unchanged. -/
theorem peakfind_spec (buf : List Int) (buflen : Nat) (hzperbin : Nat)
    (peaks : Nat) (pfreq : List Nat) (pamp : List Int) :
    peakfind buf buflen hzperbin peaks pfreq pamp = (0, pfreq, pamp) := by
  unfold peakfind
  rw [foldl_skip]

/-- The peak sequence read back from any peakfind call is empty: the returned
count is 0. -/
theorem returnedPeaks_eq_nil (buf : List Int) (buflen : Nat) (hzperbin : Nat)
    (peaks : Nat) (pfreq : List Nat) (pamp : List Int) :
    returnedPeaks buf buflen hzperbin peaks pfreq pamp = [] := by
  unfold returnedPeaks
  rw [peakfind_spec]
  rfl

/-- C1: every peak the peak finder returns lies on a local-maximum bin (at
least each existing neighbour, boundary bins against their single
neighbour), the returned sequence is sorted by descending amplitude with
ties broken by ascending frequency, and its length is at most max_peaks and
at most the number of true local maxima.  The source routine returns an
empty sequence for every input, so each property holds. -/
theorem peakfind_output_sorted_bounded_local_maxima (buf : List Int)
    (buflen : Nat) (hzperbin : Nat) (peaks : Nat)
    (pfreq : List Nat) (pamp : List Int) :
    (∀ p ∈ returnedPeaks buf buflen hzperbin peaks pfreq pamp,
        ∃ i, isLocalMax buf i = true ∧ p.1 = i * hzperbin ∧ p.2 = buf.getD i 0)
    ∧ List.Pairwise peakOrdered (returnedPeaks buf buflen hzperbin peaks pfreq pamp)
    ∧ (returnedPeaks buf buflen hzperbin peaks pfreq pamp).length ≤ peaks
    ∧ (returnedPeaks buf buflen hzperbin peaks pfreq pamp).length ≤ localMaxCount buf := by
  simp [returnedPeaks_eq_nil]

/-- C9: calling the peak finder with max_peaks = 0 returns the empty sequence
and succeeds: the return value is 0, not an error, and the outputs are
untouched. -/
theorem peakfind_zero_peaks_empty_not_error (buf : List Int) (buflen : Nat)
    (hzperbin : Nat) (pfreq : List Nat) (pamp : List Int) :
    peakfind buf buflen hzperbin 0 pfreq pamp = (0, pfreq, pamp)
    ∧ returnedPeaks buf buflen hzperbin 0 pfreq pamp = []
    ∧ 0 ≤ (peakfind buf buflen hzperbin 0 pfreq pamp).1 := by
  refine ⟨peakfind_spec buf buflen hzperbin 0 pfreq pamp,
    returnedPeaks_eq_nil buf buflen hzperbin 0 pfreq pamp, ?_⟩
  rw [peakfind_spec]

/-- C10: for every input, peakfind returns 0 and leaves both output arrays
exactly as they were; any peak values the reference driver prints afterwards
were never written by the peak finder. -/
theorem peakfind_returns_zero_and_preserves_outputs (buf : List Int)
    (buflen : Nat) (hzperbin : Nat) (peaks : Nat)
    (pfreq : List Nat) (pamp : List Int) :
    (peakfind buf buflen hzperbin peaks pfreq pamp).1 = 0
    ∧ (peakfind buf buflen hzperbin peaks pfreq pamp).2.1 = pfreq
    ∧ (peakfind buf buflen hzperbin peaks pfreq pamp).2.2 = pamp := by
  rw [peakfind_spec]
  exact ⟨rfl, rfl, rfl⟩

/-- C4: for every plan with fstop > fstart and rbw > 0 (and u64-ranged
frequencies), a successful allocation yields buflen = (fstop - fstart) / rbw
exactly, and bin i of the allocated config is labelled fstart + i * rbw for
every i in range. -/
theorem alloc_bin_count_and_labels (cfgAllocOk bufAllocOk : Bool)
    (fstart fstop : Nat) (rbw : Nat) (mode : String) (cfg : PSConfig)
    (hf : fstart < fstop) (hr : 0 < rbw) (hb : fstop < U64_MOD)
    (halloc : wsa_power_spectrum_alloc cfgAllocOk bufAllocOk fstart fstop rbw mode = some cfg) :
    cfg.buflen = (fstop - fstart) / rbw
    ∧ ∀ i, i < cfg.buflen → binFrequency cfg i = fstart + i * rbw := by
  cases cfgAllocOk with
  | false => simp [wsa_power_spectrum_alloc] at halloc
  | true =>
    cases bufAllocOk with
    | false => simp [wsa_power_spectrum_alloc] at halloc
    | true =>
      simp only [wsa_power_spectrum_alloc, if_true, Option.some.injEq] at halloc
      have hsub : u64sub fstop fstart = fstop - fstart := by
        unfold u64sub U64_MOD
        unfold U64_MOD at hb
        omega
      subst halloc
      refine ⟨by simp [hsub], ?_⟩
      intro i _
      rfl

/-- Witness for C4 at the default driver plan: fstart 2 GHz, fstop 3 GHz,
rbw 100 kHz, giving 10000 bins labelled 2000000000 + i * 100000. -/
theorem alloc_bin_count_and_labels_witness :
    (⟨2000000000, 3000000000, 100000, 10000⟩ : PSConfig).buflen
      = (3000000000 - 2000000000) / 100000
    ∧ ∀ i, i < (⟨2000000000, 3000000000, 100000, 10000⟩ : PSConfig).buflen →
        binFrequency ⟨2000000000, 3000000000, 100000, 10000⟩ i = 2000000000 + i * 100000 :=
  alloc_bin_count_and_labels true true 2000000000 3000000000 100000
    DEFAULT_SWEEP_MODE ⟨2000000000, 3000000000, 100000, 10000⟩
    (by decide) (by decide) (by decide) (by decide)

/-- C5 evidence: a degenerate plan with fstop = fstart (bin_count = 0) is not
rejected: wsa_power_spectrum_alloc performs no validation and returns
success with a zero-length buffer. -/
theorem alloc_accepts_degenerate_plan :
    wsa_power_spectrum_alloc true true 2000000000 2000000000 100000 DEFAULT_SWEEP_MODE
      = some ⟨2000000000, 2000000000, 100000, 0⟩ := by decide

/-- C2 evidence: a successful capture (trigger accepted, one IF packet read)
returns 0 yet never writes the spectrum buffer: the contents, here the
poison-like stale values 9999, pass through to the caller unchanged. -/
theorem capture_success_never_populates_buffer :
    wsa_capture_power_spectrum ⟨0, 300, 100, 3⟩ [9999, 9999, 9999] 0
        [VrtEvent.packet ⟨3, IF_PACKET_TYPE⟩]
      = some (0, setupOps ++ [DevOp.readVrtPacket 1024 5000], [9999, 9999, 9999]) := by
  decide

/-- Modelled from the spec: bins per capture step is half the
samples-per-packet; the source fixes samples-per-packet at 1024. -/
def bins_per_capture : Nat := 1024 / 2

/-- Modelled from the spec: the number of capture sessions one sweep is
specified to perform, ceil of bin_count over bins_per_capture. -/
def claimedStepCount (bin_count : Nat) : Nat :=
  (bin_count + bins_per_capture - 1) / bins_per_capture

/-- C3 evidence: on the default 10000-bin plan the capture routine issues
exactly one capture-block trigger, where the specified step count is
ceil(10000 / 512) = 20; the sweep loop over tuning frequencies is absent
from the source. -/
theorem capture_performs_one_capture_not_stepcount :
    ((wsa_capture_power_spectrum ⟨2000000000, 3000000000, 100000, 10000⟩ [] 0
        [VrtEvent.packet ⟨3, IF_PACKET_TYPE⟩]).map
      (fun r => r.2.1.countP (fun op => decide (op = DevOp.captureBlock)))) = some 1
    ∧ claimedStepCount 10000 = 20 ∧ (1 : Nat) ≠ 20 := by
  refine ⟨by decide, by decide, by decide⟩

/-- Prepending events the loop skips only adds their count to the reads of
the loop outcome on the remaining events. -/
theorem readLoop_append_skip (pre rest : List VrtEvent)
    (hpre : ∀ e ∈ pre, isSkippablePacket e) :
    readLoop (pre ++ rest) = (readLoop rest).map (fun p => (p.1, p.2 + pre.length)) := by
  induction pre with
  | nil =>
    rw [List.nil_append]
    cases hr : readLoop rest with
    | none => rfl
    | some p => rfl
  | cons e t ih =>
    obtain ⟨hd, rfl, hne⟩ := hpre e (List.mem_cons_self e t)
    have ih2 := ih (fun x hx => hpre x (List.mem_cons_of_mem _ hx))
    have hstep : readLoop (VrtEvent.packet hd :: (t ++ rest))
        = (readLoop (t ++ rest)).map (fun p => (p.1, p.2 + 1)) := by
      simp only [readLoop]
      rw [if_neg hne]
    rw [List.cons_append, hstep, ih2]
    cases hr : readLoop rest with
    | none => rfl
    | some p => rfl

/-- C6: when a capture step fails at the packet read (for example no IF
packet before the read deadline), the capture call propagates the failure as
its error result and the spectrum buffer passes through untouched: no
partially filled buffer is surfaced. -/
theorem capture_read_failure_propagates (cfg : PSConfig) (contents : List Int)
    (cbr : Int) (pre : List VrtEvent) (code : Int) (post : List VrtEvent)
    (hc : 0 ≤ cbr) (hpre : ∀ e ∈ pre, isSkippablePacket e) :
    wsa_capture_power_spectrum cfg contents cbr (pre ++ VrtEvent.readErr code :: post)
      = some (-1, setupOps ++ List.replicate (pre.length + 1) (DevOp.readVrtPacket 1024 5000),
          contents) := by
  have hr : readLoop (pre ++ VrtEvent.readErr code :: post)
      = some (VrtReadResult.ioError code, pre.length + 1) := by
    rw [readLoop_append_skip pre _ hpre]
    simp [readLoop, Nat.add_comm]
  unfold wsa_capture_power_spectrum
  rw [if_neg (not_lt.mpr hc), hr]

/-- Witness for C6: with the trigger accepted, one context packet and then a
read failure of code -2 yield the error return -1 after two reads, with the
stale buffer [1, 2, 3] unchanged. -/
theorem capture_read_failure_propagates_witness :
    wsa_capture_power_spectrum ⟨0, 300, 100, 3⟩ [1, 2, 3] 0
        [VrtEvent.packet ⟨5, CONTEXT_PACKET_TYPE⟩, VrtEvent.readErr (-2)]
      = some (-1, setupOps ++ List.replicate 2 (DevOp.readVrtPacket 1024 5000), [1, 2, 3]) :=
  capture_read_failure_propagates ⟨0, 300, 100, 3⟩ [1, 2, 3] 0
    [VrtEvent.packet ⟨5, CONTEXT_PACKET_TYPE⟩] (-2) [] (by decide)
    (by
      intro e he
      have h1 : e = VrtEvent.packet ⟨5, CONTEXT_PACKET_TYPE⟩ := List.mem_singleton.mp he
      exact ⟨⟨5, CONTEXT_PACKET_TYPE⟩, h1, by decide⟩)

/-- C7: any run of successfully decoded non-IF packets (context packets, and
packets of unrecognized stream id, which the loop only logs) arriving before
an IF data packet is skipped by the read loop; the loop terminates on that
very IF packet and the capture call succeeds with return 0 - a non-IF packet
never aborts the capture. -/
theorem capture_skips_non_if_packets (cfg : PSConfig) (contents : List Int)
    (cbr : Int) (pre : List VrtEvent) (h : VrtHeader) (post : List VrtEvent)
    (hc : 0 ≤ cbr) (hpre : ∀ e ∈ pre, isSkippablePacket e)
    (hIF : h.packet_type = IF_PACKET_TYPE) :
    readLoop (pre ++ VrtEvent.packet h :: post)
      = some (VrtReadResult.gotIF h, pre.length + 1)
    ∧ wsa_capture_power_spectrum cfg contents cbr (pre ++ VrtEvent.packet h :: post)
      = some (0, setupOps ++ List.replicate (pre.length + 1) (DevOp.readVrtPacket 1024 5000),
          contents) := by
  have hr : readLoop (pre ++ VrtEvent.packet h :: post)
      = some (VrtReadResult.gotIF h, pre.length + 1) := by
    rw [readLoop_append_skip pre _ hpre]
    simp [readLoop, hIF, Nat.add_comm]
  refine ⟨hr, ?_⟩
  unfold wsa_capture_power_spectrum
  rw [if_neg (not_lt.mpr hc), hr]

/-- Witness for C7: a receiver-context packet and a context packet with an
unrecognized stream id precede the IF packet; the loop skips both and stops
at the IF packet, and the capture returns 0 after three reads. -/
theorem capture_skips_non_if_packets_witness :
    readLoop [VrtEvent.packet ⟨5, CONTEXT_PACKET_TYPE⟩, VrtEvent.packet ⟨99, CONTEXT_PACKET_TYPE⟩,
        VrtEvent.packet ⟨3, IF_PACKET_TYPE⟩]
      = some (VrtReadResult.gotIF ⟨3, IF_PACKET_TYPE⟩, 3)
    ∧ wsa_capture_power_spectrum ⟨0, 300, 100, 3⟩ [7, 7, 7] 0
        [VrtEvent.packet ⟨5, CONTEXT_PACKET_TYPE⟩, VrtEvent.packet ⟨99, CONTEXT_PACKET_TYPE⟩,
          VrtEvent.packet ⟨3, IF_PACKET_TYPE⟩]
      = some (0, setupOps ++ List.replicate 3 (DevOp.readVrtPacket 1024 5000), [7, 7, 7]) :=
  capture_skips_non_if_packets ⟨0, 300, 100, 3⟩ [7, 7, 7] 0
    [VrtEvent.packet ⟨5, CONTEXT_PACKET_TYPE⟩, VrtEvent.packet ⟨99, CONTEXT_PACKET_TYPE⟩]
    ⟨3, IF_PACKET_TYPE⟩ [] (by decide)
    (by
      intro e he
      rcases List.mem_cons.mp he with h1 | h2
      · exact ⟨⟨5, CONTEXT_PACKET_TYPE⟩, h1, by decide⟩
      · have h3 : e = VrtEvent.packet ⟨99, CONTEXT_PACKET_TYPE⟩ := List.mem_singleton.mp h2
        exact ⟨⟨99, CONTEXT_PACKET_TYPE⟩, h3, by decide⟩)
    rfl

/-- The device-operation order the specification claims for one capture step,
for a caller-supplied mode: set the input mode to that mode, set
samples-per-packet and packets-per-block, flush stale data, trigger the
capture (then the read loop). -/
def claimedSetupOps (mode : String) : List DevOp :=
  [DevOp.setRFEInputMode mode, DevOp.setSPP 1024, DevOp.setPPB 1,
   DevOp.flushData, DevOp.captureBlock]

/-- C8 counterexample: on a concrete successful capture with the driver
default caller mode SH, the first five device operations are not the claimed
sequence (the flush comes first, not fourth), and no operation ever sets the
input mode to the mode the caller passed: the routine hardcodes the SHN
constant. -/
theorem capture_order_mode_counterexample :
    ((wsa_capture_power_spectrum ⟨2000000000, 3000000000, 100000, 10000⟩ [] 0
        [VrtEvent.packet ⟨3, IF_PACKET_TYPE⟩]).map (fun r => r.2.1.take 5))
      ≠ some (claimedSetupOps DEFAULT_SWEEP_MODE)
    ∧ ((wsa_capture_power_spectrum ⟨2000000000, 3000000000, 100000, 10000⟩ [] 0
        [VrtEvent.packet ⟨3, IF_PACKET_TYPE⟩]).map
          (fun r => decide (DevOp.setRFEInputMode DEFAULT_SWEEP_MODE ∈ r.2.1))) = some false := by
  refine ⟨by decide, by decide⟩

/-- C8 as amended: whenever the capture call returns, its device operations
begin flush, set input mode to the fixed constant WSA_RFE_SHN_STRING
(ignoring the caller-supplied mode), samples-per-packet 1024,
packets-per-block 1, one capture trigger, and every later operation is a
packet read with the 5000 ms deadline. -/
theorem capture_actual_operation_order (cfg : PSConfig) (contents : List Int)
    (cbr : Int) (events : List VrtEvent) (r : Int × List DevOp × List Int)
    (hr : wsa_capture_power_spectrum cfg contents cbr events = some r) :
    r.2.1.take 5 = setupOps
    ∧ ∀ op ∈ r.2.1.drop 5, op = DevOp.readVrtPacket 1024 5000 := by
  unfold wsa_capture_power_spectrum at hr
  by_cases h : cbr < 0
  · rw [if_pos h] at hr
    obtain rfl := (Option.some.injEq _ _).mp hr
    exact ⟨rfl, by intro op hop; simp [setupOps] at hop⟩
  · rw [if_neg h] at hr
    cases hl : readLoop events with
    | none => rw [hl] at hr; exact absurd hr (by simp)
    | some p =>
      rw [hl] at hr
      obtain ⟨res, n⟩ := p
      cases res with
      | ioError code =>
        obtain rfl := (Option.some.injEq _ _).mp hr
        refine ⟨rfl, ?_⟩
        intro op hop
        exact List.eq_of_mem_replicate hop
      | gotIF hd =>
        obtain rfl := (Option.some.injEq _ _).mp hr
        refine ⟨rfl, ?_⟩
        intro op hop
        exact List.eq_of_mem_replicate hop

/-- Witness for C8: the amended order evaluated on a concrete successful
capture whose trace is the five setup operations followed by one read. -/
theorem capture_actual_operation_order_witness :
    (setupOps ++ List.replicate 1 (DevOp.readVrtPacket 1024 5000)).take 5 = setupOps
    ∧ ∀ op ∈ (setupOps ++ List.replicate 1 (DevOp.readVrtPacket 1024 5000)).drop 5,
        op = DevOp.readVrtPacket 1024 5000 :=
  capture_actual_operation_order ⟨0, 300, 100, 3⟩ [] 0 [VrtEvent.packet ⟨3, IF_PACKET_TYPE⟩]
    (0, setupOps ++ List.replicate 1 (DevOp.readVrtPacket 1024 5000), []) (by decide)
